import Mathlib

/-!
# Shallow embedding of the shade-tree distributed LXC orchestrator

This file embeds the coordinator-side control plane of the repository
(`src/network.c`, `src/coordinator.c`) as executable Lean definitions and
proves properties of them.

Modelling conventions:
* C arrays with an explicit element count (`nodes[MAX_NODES]` with
  `node_count`, `deployed_containers[MAX_CONTAINERS]` with
  `deployed_container_count`, `node->containers` with
  `node->container_count`) are modelled as Lean lists holding exactly the
  meaningful prefix `[0, count)`; all reads in the source are bounded by the
  corresponding count, so slots beyond the prefix are unobservable.
* `time_t` values are `Int` (seconds); `double` resource samples are `ℚ`.
* C strings are Lean `String`s; `strcmp`-equality is string equality.
* A socket send (`send_message`) fails exactly when the file descriptor is
  negative, which is the only failure mode visible in the state model; the
  actual kernel `send` is an external effect.
-/

/-- `message_type_t` from `include/distributed_lxc.h`. -/
inductive MessageType where
  | registerNode
  | nodeHeartbeat
  | deployContainer
  | startContainer
  | stopContainer
  | deleteContainer
  | containerStatus
  | nodeStatus
  | error
  | ack
deriving DecidableEq, Repr

/-- `container_state_t` from `include/distributed_lxc.h`. -/
inductive ContainerState where
  | stopped
  | starting
  | running
  | stopping
  | error
deriving DecidableEq, Repr

/-- `node_state_t` from `include/distributed_lxc.h`. -/
inductive NodeState where
  | disconnected
  | connecting
  | connected
  | busy
  | error
deriving DecidableEq, Repr

/-- `resource_info_t` from `include/distributed_lxc.h`. -/
structure ResourceInfo where
  cpu_usage : ℚ
  memory_usage : ℚ
  disk_usage : ℚ
  container_count : Int
  max_containers : Int
deriving DecidableEq, Repr

/-- `lxc_config_t` from `include/distributed_lxc.h`. -/
structure LxcConfig where
  name : String
  image : String
  config_file : String
  environment_vars : String
  mount_points : String
  network_config : String
  cpu_limit : Int
  memory_limit : Int
  privileged : Int
deriving DecidableEq, Repr

/-- `container_t` from `include/distributed_lxc.h`. -/
structure Container where
  id : String
  name : String
  node_id : String
  state : ContainerState
  config : LxcConfig
  created_at : Int
  started_at : Int
  log_file : String
deriving DecidableEq, Repr

/-- `node_t` from `include/distributed_lxc.h`.  `containers` is the
meaningful prefix `containers[0, container_count)` of the embedded array. -/
structure Node where
  id : String
  hostname : String
  ip_address : String
  port : Int
  state : NodeState
  resources : ResourceInfo
  last_heartbeat : Int
  socket_fd : Int
  containers : List Container
  container_count : Int
deriving DecidableEq, Repr

/-- `MAX_NODES` from `include/distributed_lxc.h`. -/
def MAX_NODES : Nat := 256

/-- `MAX_CONTAINERS` from `include/distributed_lxc.h`. -/
def MAX_CONTAINERS : Nat := 1024

/-- Replace the first list element satisfying `p` by its image under `f`
(the C pattern: scan the meaningful prefix, mutate the first `strcmp` hit,
`break`). -/
def updateFirst (p : α → Bool) (f : α → α) : List α → List α
  | [] => []
  | x :: xs => if p x then f x :: xs else x :: updateFirst p f xs

/-- Remove the first list element satisfying `p` (the C pattern: find the
index, shift the tail down one slot, decrement the count). -/
def eraseFirstBy (p : α → Bool) : List α → List α
  | [] => []
  | x :: xs => if p x then xs else x :: eraseFirstBy p xs

/-- Whether some element satisfies `p` (the C scan loops succeed). -/
def anyBy (p : α → Bool) : List α → Bool
  | [] => false
  | x :: xs => p x || anyBy p xs

/-- `find_node_by_id` in `src/network.c`: first node whose `id` matches. -/
def find_node_by_id (nodes : List Node) (node_id : String) : Option Node :=
  match nodes with
  | [] => none
  | n :: rest => if n.id = node_id then some n else find_node_by_id rest node_id

/-- The fresh record written by `register_node` into `nodes[node_count]`:
all assigned fields of the new-node branch; `resources` is `memset` to zero
and `container_count` to 0.  The socket and container slots are whatever the
static array held; the logical container prefix is empty because
`container_count = 0`, and `socket_fd` is the static initial 0 (it is
assigned by the connection handler right after registration). -/
def freshNode (node_id hostname ip_address : String) (port now : Int) : Node :=
  { id := node_id
    hostname := hostname
    ip_address := ip_address
    port := port
    state := NodeState.connected
    resources :=
      { cpu_usage := 0, memory_usage := 0, disk_usage := 0
        container_count := 0, max_containers := 0 }
    last_heartbeat := now
    socket_fd := 0
    containers := []
    container_count := 0 }

/-- `register_node` in `src/network.c`.  Returns the C result code and the
registry after the call.  Note the order of checks in the source: the
capacity test on `node_count` runs before the existing-id scan. -/
def register_node (now : Int) (node_id hostname ip_address : String)
    (port : Int) (nodes : List Node) : Int × List Node :=
  if nodes.length ≥ MAX_NODES then (-1, nodes)
  else if anyBy (fun n => n.id = node_id) nodes then
    (0, updateFirst (fun n => n.id = node_id)
      (fun n =>
        { n with hostname := hostname, ip_address := ip_address, port := port
                 state := NodeState.connected, last_heartbeat := now }) nodes)
  else
    (0, nodes ++ [freshNode node_id hostname ip_address port now])

/-- `unregister_node` in `src/network.c`: removes the first matching node
(shifting the tail), returns 0 when found and -1 otherwise. -/
def unregister_node (node_id : String) (nodes : List Node) :
    Int × List Node :=
  if anyBy (fun n => n.id = node_id) nodes then
    (0, eraseFirstBy (fun n => n.id = node_id) nodes)
  else
    (-1, nodes)

/-- A frame handed to `send()`: the observable effect of a successful
`send_message` call (socket, message type, recipient). -/
structure SentMsg where
  socket_fd : Int
  type : MessageType
  recipient_id : String
deriving DecidableEq, Repr

/-- `send_message` in `src/network.c` refuses a negative descriptor before
touching the socket; in the state model a send succeeds iff `fd ≥ 0`. -/
def send_ok (socket_fd : Int) : Bool := socket_fd ≥ 0

/-- The frames actually emitted by one `send_message` call. -/
def sendOn (socket_fd : Int) (type : MessageType) (recipient_id : String) :
    List SentMsg :=
  if send_ok socket_fd then [⟨socket_fd, type, recipient_id⟩] else []

/-! ## Placement (`src/coordinator.c`, `find_best_node`) -/

/-- The weighted score in `find_best_node` (`src/coordinator.c` lines
42-52); C `double` arithmetic is modelled over `ℚ`. -/
def nodeScore (node : Node) : ℚ :=
  let cpu_available : ℚ := 100 - node.resources.cpu_usage
  let memory_available : ℚ := 100 - node.resources.memory_usage
  let disk_available : ℚ := 100 - node.resources.disk_usage
  let container_load : ℚ :=
    (node.container_count : ℚ) / (node.resources.max_containers : ℚ)
  cpu_available * (3/10) + memory_available * (3/10) +
    disk_available * (2/10) + (1 - container_load) * 100 * (2/10)

/-- The loop body of `find_best_node`, threading `best_node`/`best_score`
through the scan of `nodes[0, node_count)`. -/
def findBestAux (current_time : Int) :
    List Node → Option Node → ℚ → Option Node
  | [], best_node, _ => best_node
  | node :: rest, best_node, best_score =>
    if node.state ≠ NodeState.connected ∨
        current_time - node.last_heartbeat > 30 then
      findBestAux current_time rest best_node best_score
    else if node.container_count ≥ node.resources.max_containers then
      findBestAux current_time rest best_node best_score
    else if nodeScore node > best_score then
      findBestAux current_time rest (some node) (nodeScore node)
    else
      findBestAux current_time rest best_node best_score

/-- `find_best_node` in `src/coordinator.c`.  The config argument is used
only for the null check and logging in the source; `best_score` starts at
`-1.0`. -/
def find_best_node (_config : LxcConfig) (current_time : Int)
    (nodes : List Node) : Option Node :=
  findBestAux current_time nodes none (-1)

/-- Eligibility as the complement of the two `continue` guards of
`find_best_node`: connected, heartbeat at most 30 s old, spare capacity. -/
def eligibleNode (current_time : Int) (node : Node) : Prop :=
  node.state = NodeState.connected ∧
    current_time - node.last_heartbeat ≤ 30 ∧
    node.container_count < node.resources.max_containers

instance (current_time : Int) (node : Node) :
    Decidable (eligibleNode current_time node) := by
  unfold eligibleNode; infer_instance

/-! ## Coordinator ledger and operations (`src/coordinator.c`) -/

/-- The coordinator's global state: the node registry of `src/network.c`
(`nodes[0, node_count)`) and the container ledger of `src/coordinator.c`
(`deployed_containers[0, deployed_container_count)`). -/
structure CoordState where
  nodes : List Node
  ledger : List Container
deriving DecidableEq, Repr

/-- Result of one coordinator operation: the C return code, the frames
emitted, and the state after the call. -/
structure OpResult where
  ret : Int
  sent : List SentMsg
  state : CoordState
deriving DecidableEq, Repr

/-- The ledger record built by `deploy_container` (`src/coordinator.c`
lines 101-109): `id` is `snprintf("%s_%s", node_id, name)` into a 256-byte
buffer (truncated to 255 characters), state `STARTING`.  `started_at` and
`log_file` are not assigned by the source; the model uses the zero values
of the static array. -/
def deployedRecord (node_id : String) (config : LxcConfig) (now : Int) :
    Container :=
  { id := (node_id ++ "_" ++ config.name).take 255
    name := config.name
    node_id := node_id
    state := ContainerState.starting
    config := config
    created_at := now
    started_at := 0
    log_file := "" }

/-- `deploy_container` in `src/coordinator.c`: look up the node, require
`NODE_CONNECTED`, send `MSG_DEPLOY_CONTAINER`, then append the record to
the ledger only when `deployed_container_count < MAX_CONTAINERS` (and to
the node's own list only when its count is below the cap); the final
return is 0 regardless of whether the record was stored. -/
def deploy_container (now : Int) (node_id : String) (config : LxcConfig)
    (s : CoordState) : OpResult :=
  match find_node_by_id s.nodes node_id with
  | none => ⟨-1, [], s⟩
  | some node =>
    if node.state ≠ NodeState.connected then ⟨-1, [], s⟩
    else if ¬ send_ok node.socket_fd then ⟨-1, [], s⟩
    else
      let sent := sendOn node.socket_fd MessageType.deployContainer node_id
      if s.ledger.length < MAX_CONTAINERS then
        let container := deployedRecord node_id config now
        let nodes' := updateFirst (fun n => n.id = node_id)
          (fun n =>
            if n.container_count < (MAX_CONTAINERS : Int) then
              { n with containers := n.containers ++ [container]
                       container_count := n.container_count + 1 }
            else n) s.nodes
        ⟨0, sent, { nodes := nodes', ledger := s.ledger ++ [container] }⟩
      else
        ⟨0, sent, s⟩

/-- First ledger entry with the given container id (the lookup loop shared
by `start_container`, `stop_container`, `delete_container`,
`get_container_status`). -/
def findContainer (ledger : List Container) (container_id : String) :
    Option Container :=
  match ledger with
  | [] => none
  | c :: rest =>
    if c.id = container_id then some c else findContainer rest container_id

/-- `start_container` in `src/coordinator.c`: look up the ledger entry and
its node, send `MSG_START_CONTAINER`; only after a successful send set the
entry to `STARTING` and stamp `started_at`.  There is no check of the
node's `state`; the send fails only on a closed (negative) descriptor. -/
def start_container (now : Int) (container_id : String) (s : CoordState) :
    OpResult :=
  match findContainer s.ledger container_id with
  | none => ⟨-1, [], s⟩
  | some container =>
    match find_node_by_id s.nodes container.node_id with
    | none => ⟨-1, [], s⟩
    | some node =>
      if ¬ send_ok node.socket_fd then ⟨-1, [], s⟩
      else
        let sent := sendOn node.socket_fd MessageType.startContainer node.id
        let ledger' := updateFirst (fun c => c.id = container_id)
          (fun c => { c with state := ContainerState.starting
                             started_at := now }) s.ledger
        ⟨0, sent, { s with ledger := ledger' }⟩

/-- `stop_container` in `src/coordinator.c`: same shape as
`start_container`, setting the entry to `STOPPING` after a successful
send; again no node-state check. -/
def stop_container (container_id : String) (s : CoordState) : OpResult :=
  match findContainer s.ledger container_id with
  | none => ⟨-1, [], s⟩
  | some container =>
    match find_node_by_id s.nodes container.node_id with
    | none => ⟨-1, [], s⟩
    | some node =>
      if ¬ send_ok node.socket_fd then ⟨-1, [], s⟩
      else
        let sent := sendOn node.socket_fd MessageType.stopContainer node.id
        let ledger' := updateFirst (fun c => c.id = container_id)
          (fun c => { c with state := ContainerState.stopping }) s.ledger
        ⟨0, sent, { s with ledger := ledger' }⟩

/-- `delete_container` in `src/coordinator.c`: look up the ledger entry;
when its node exists, attempt the `MSG_DELETE_CONTAINER` send (a failure
is only a warning), and drop the container from the node's own list; in
every found case remove the ledger entry and return 0.  Worker state and
send success never cause a rejection. -/
def delete_container (container_id : String) (s : CoordState) : OpResult :=
  match findContainer s.ledger container_id with
  | none => ⟨-1, [], s⟩
  | some container =>
    let step :=
      match find_node_by_id s.nodes container.node_id with
      | none => ([], s.nodes)
      | some node =>
        (sendOn node.socket_fd MessageType.deleteContainer node.id,
         updateFirst (fun n => n.id = container.node_id)
           (fun n =>
             if anyBy (fun (c : Container) => c.id = container_id)
                 n.containers then
               { n with
                  containers :=
                    eraseFirstBy (fun c => c.id = container_id) n.containers
                  container_count := n.container_count - 1 }
             else n) s.nodes)
    let ledger' := eraseFirstBy (fun c => c.id = container_id) s.ledger
    ⟨0, step.1, { nodes := step.2, ledger := ledger' }⟩

/-- `get_container_status` in `src/coordinator.c`: the state of the first
matching ledger entry, `CONTAINER_ERROR` when absent. -/
def get_container_status (container_id : String) (s : CoordState) :
    ContainerState :=
  match findContainer s.ledger container_id with
  | none => ContainerState.error
  | some container => container.state

/-! ## Connection handler (`src/network.c`, `handle_client_connection`) -/

/-- Byte sizes of the packed structs, as compared against `data_length` by
the handler's `>= sizeof(...)` guards (x86-64 layout of
`resource_info_t` and `container_t`). -/
def SIZEOF_RESOURCE_INFO : Int := 32

/-- See `SIZEOF_RESOURCE_INFO`. -/
def SIZEOF_CONTAINER_T : Int := 3392

/-- The payload of a received frame as the handler reinterprets it:
`sscanf`-parsed registration text, a `resource_info_t` copy, a
`container_t` copy, or opaque text. -/
inductive MsgPayload where
  | registerInfo (hostname ip_address : String) (port : Int)
  | resourceSample (resources : ResourceInfo)
  | containerReport (container : Container)
  | text (s : String)
deriving DecidableEq, Repr

/-- A received frame as seen by the dispatch `switch` of
`handle_client_connection`: type, sender, declared payload length, and the
payload under the reinterpretation the handler applies for that type. -/
structure CoordMsg where
  type : MessageType
  sender_id : String
  data_length : Int
  payload : MsgPayload
deriving DecidableEq, Repr

/-- One iteration of the receive loop in `handle_client_connection`
(`src/network.c` lines 166-229): dispatch on `msg.type`.
* `MSG_REGISTER_NODE`: parse the payload, call `register_node`; on success
  store the client socket in the record and send `MSG_ACK`.
* `MSG_NODE_HEARTBEAT`: refresh `last_heartbeat`, force `NODE_CONNECTED`,
  and copy the resources when `data_length >= sizeof(resource_info_t)`.
* `MSG_CONTAINER_STATUS`: when the sender is known and
  `data_length >= sizeof(container_t)`, overwrite the state of the first
  matching entry of the sender's own container list — unconditionally, and
  only there (the coordinator ledger is a different translation unit's
  static and is never touched).
* `MSG_ERROR` and unknown types only log. -/
def handle_message (now : Int) (client_socket : Int) (msg : CoordMsg)
    (s : CoordState) : CoordState × List SentMsg :=
  match msg.type, msg.payload with
  | MessageType.registerNode, MsgPayload.registerInfo hostname ip port =>
    let r := register_node now msg.sender_id hostname ip port s.nodes
    if r.1 = 0 then
      let nodes' := updateFirst (fun n => n.id = msg.sender_id)
        (fun n => { n with socket_fd := client_socket }) r.2
      ({ s with nodes := nodes' },
       sendOn client_socket MessageType.ack msg.sender_id)
    else ({ s with nodes := r.2 }, [])
  | MessageType.nodeHeartbeat, MsgPayload.resourceSample resources =>
    let nodes' := updateFirst (fun n => n.id = msg.sender_id)
      (fun n =>
        { n with last_heartbeat := now, state := NodeState.connected
                 resources :=
                   if msg.data_length ≥ SIZEOF_RESOURCE_INFO then resources
                   else n.resources }) s.nodes
    ({ s with nodes := nodes' }, [])
  | MessageType.nodeHeartbeat, _ =>
    let nodes' := updateFirst (fun n => n.id = msg.sender_id)
      (fun n =>
        { n with last_heartbeat := now
                 state := NodeState.connected }) s.nodes
    ({ s with nodes := nodes' }, [])
  | MessageType.containerStatus, MsgPayload.containerReport report =>
    if msg.data_length ≥ SIZEOF_CONTAINER_T then
      let nodes' := updateFirst (fun n => n.id = msg.sender_id)
        (fun n =>
          { n with containers :=
              (updateFirst (fun (c : Container) => c.id = report.id)
                (fun c => { c with state := report.state })
                n.containers) }) s.nodes
      ({ s with nodes := nodes' }, [])
    else (s, [])
  | _, _ => (s, [])

/-- The cleanup block at the end of `handle_client_connection`
(`src/network.c` lines 232-240), run when the connection drops: if the
connection had registered a node id, mark that node `NODE_DISCONNECTED`
and clear its socket.  Nothing else changes — in particular the container
ledger and every container state are untouched. -/
def connection_closed (node_id : String) (s : CoordState) : CoordState :=
  if node_id.length > 0 then
    { s with nodes :=
        (updateFirst (fun n => n.id = node_id)
          (fun n => { n with state := NodeState.disconnected
                             socket_fd := -1 }) s.nodes) }
  else s

/-- `unregister_node` lifted to the coordinator state: it lives in
`src/network.c` and only edits the node table; the ledger statics of
`src/coordinator.c` are not in scope there. -/
def unregister_node_coord (node_id : String) (s : CoordState) :
    Int × CoordState :=
  let r := unregister_node node_id s.nodes
  (r.1, { s with nodes := r.2 })

/-- A fold of `handle_message` over a list of received frames, all handled
at time `now` on sockets paired with each message: the registry evolution
of a coordinator that receives exactly these frames and no connection
close.  The source has no other writer of the node table (no timer thread
exists in the repository). -/
def handle_messages (now : Int) : List (Int × CoordMsg) → CoordState →
    CoordState
  | [], s => s
  | (sock, m) :: rest, s =>
    handle_messages now rest (handle_message now sock m s).1

/-! ## Wire codec (`src/network.c`, `create_message` / `receive_message`) -/

/-- `MAX_NAME_LEN` from `include/distributed_lxc.h`: the byte width of the
`sender_id` / `recipient_id` frame fields. -/
def MAX_NAME_LEN : Nat := 256

/-- The byte width of the `data` region of `message_t`:
`BUFFER_SIZE - sizeof(message_type_t) - 2*MAX_NAME_LEN - sizeof(int)`
`= 8192 - 4 - 512 - 4`. -/
def FRAME_DATA_SIZE : Nat := 7672

/-- One 8 KiB frame (`message_t`): the two id fields are exactly
`MAX_NAME_LEN` bytes, the data region exactly `FRAME_DATA_SIZE` bytes;
bytes are `Nat` values < 256. -/
structure Frame where
  type : MessageType
  sender_field : List Nat
  recipient_field : List Nat
  data_length : Nat
  data : List Nat
deriving DecidableEq, Repr

/-- A logical message before framing: the arguments the callers hand to
`create_message` (ids as NUL-free byte strings, payload bytes); the
`data_len` argument of the C call is the payload length. -/
structure WireMessage where
  type : MessageType
  sender_id : List Nat
  recipient_id : List Nat
  payload : List Nat
deriving DecidableEq, Repr

/-- Pad a byte string with NULs up to `width` after truncating to
`limit` bytes: the effect of `memset(0)` followed by
`strncpy(dst, src, limit)` into a `width`-byte field. -/
def padField (width limit : Nat) (bytes : List Nat) : List Nat :=
  bytes.take limit ++ List.replicate (width - (bytes.take limit).length) 0

/-- `create_message` in `src/network.c`: zero the frame, store the type,
`strncpy` both ids (at most `MAX_NAME_LEN - 1` bytes each), and copy
`min(data_len, sizeof(msg->data))` payload bytes, recording that count in
`data_length`.  (With an empty payload the copy branch is skipped and the
`memset` zeros remain — the same frame this formula yields.) -/
def create_message (m : WireMessage) : Frame :=
  let copy_len :=
    if m.payload.length < FRAME_DATA_SIZE then m.payload.length
    else FRAME_DATA_SIZE
  { type := m.type
    sender_field := padField MAX_NAME_LEN (MAX_NAME_LEN - 1) m.sender_id
    recipient_field := padField MAX_NAME_LEN (MAX_NAME_LEN - 1) m.recipient_id
    data_length := copy_len
    data := m.payload.take copy_len ++
      List.replicate (FRAME_DATA_SIZE - copy_len) 0 }

/-- Reading a received frame back (`receive_message` delivers the raw
struct; the consumers read the id fields as NUL-terminated strings and
exactly `data_length` payload bytes). -/
def decode_message (f : Frame) : WireMessage :=
  { type := f.type
    sender_id := f.sender_field.takeWhile (fun b => b ≠ 0)
    recipient_id := f.recipient_field.takeWhile (fun b => b ≠ 0)
    payload := f.data.take f.data_length }

/-! ## Concrete sample values used by witnesses and counterexamples -/

/-- A sample container spec (the S1/S2 scenario shape). -/
def sampleConfig : LxcConfig :=
  { name := "web", image := "u20", config_file := "", environment_vars := ""
    mount_points := "", network_config := "", cpu_limit := 0
    memory_limit := 0, privileged := 0 }

/-- A healthy resource sample: 10 % usage, 0 of 10 containers. -/
def res10 : ResourceInfo :=
  { cpu_usage := 10, memory_usage := 10, disk_usage := 10
    container_count := 0, max_containers := 10 }

/-- A connected node with `res10` resources and the given id,
heartbeat at time 100. -/
def healthyNode (id : String) : Node :=
  { id := id, hostname := "h", ip_address := "10.0.0.1", port := 0
    state := NodeState.connected, resources := res10
    last_heartbeat := 100, socket_fd := 5, containers := []
    container_count := 0 }

/-- A connected node whose heartbeat is stale at time 100
(`last_heartbeat = 0`). -/
def staleNode : Node := { healthyNode "w1" with last_heartbeat := 0 }

/-- The ledger record of scenario S1/S3: container `w1_web` on node
`w1`, in `STARTING`. -/
def w1web : Container :=
  { id := "w1_web", name := "web", node_id := "w1"
    state := ContainerState.starting, config := sampleConfig
    created_at := 1, started_at := 0, log_file := "" }

/-- Node `w1` while connected, holding `w1web`. -/
def connW1 : Node :=
  { healthyNode "w1" with containers := [w1web], container_count := 1
                          socket_fd := 7 }

/-- Node `w1` after its connection dropped: `NODE_DISCONNECTED`,
socket cleared, container list retained. -/
def discW1 : Node :=
  { connW1 with state := NodeState.disconnected, socket_fd := -1 }

/-- A `CONTAINER_STATUS` frame from `w1` reporting `w1_web` as
`RUNNING` (the legal `STARTING → RUNNING` step). -/
def statusMsgRunning : CoordMsg :=
  { type := MessageType.containerStatus, sender_id := "w1"
    data_length := SIZEOF_CONTAINER_T
    payload := MsgPayload.containerReport
      { w1web with state := ContainerState.running } }

/-- An `MSG_ERROR` frame from another worker. -/
def errMsgW2 : CoordMsg :=
  { type := MessageType.error, sender_id := "w2", data_length := 5
    payload := MsgPayload.text "boom" }

/-- A heartbeat frame from another worker. -/
def hbMsgW2 : CoordMsg :=
  { type := MessageType.nodeHeartbeat, sender_id := "w2"
    data_length := SIZEOF_RESOURCE_INFO
    payload := MsgPayload.resourceSample res10 }

/-- A small wire message for the codec witness. -/
def sampleWire : WireMessage :=
  { type := MessageType.ack, sender_id := [99, 111]
    recipient_id := [119, 49], payload := [114, 101, 103, 0, 7] }

/-! ## Helper lemmas -/

theorem findBestAux_mem_sound (current_time : Int) :
    ∀ (l : List Node) (best : Option Node) (best_score : ℚ),
    (∀ n, best = some n → eligibleNode current_time n) →
    ∀ n, findBestAux current_time l best best_score = some n →
      eligibleNode current_time n := by
  intro l
  induction l with
  | nil => intro best bs hbest n h; exact hbest n h
  | cons x xs ih =>
    intro best bs hbest n h
    rw [findBestAux] at h
    by_cases h1 : x.state ≠ NodeState.connected ∨
        current_time - x.last_heartbeat > 30
    · rw [if_pos h1] at h
      exact ih best bs hbest n h
    · rw [if_neg h1] at h
      by_cases h2 : x.container_count ≥ x.resources.max_containers
      · rw [if_pos h2] at h
        exact ih best bs hbest n h
      · rw [if_neg h2] at h
        push_neg at h1 h2
        by_cases h3 : nodeScore x > bs
        · rw [if_pos h3] at h
          refine ih (some x) (nodeScore x) ?_ n h
          intro m hm
          cases hm
          exact ⟨h1.1, le_of_not_lt (by simpa using h1.2), h2⟩
        · rw [if_neg h3] at h
          exact ih best bs hbest n h

theorem findBestAux_all_skipped (current_time : Int) :
    ∀ (l : List Node) (best : Option Node) (best_score : ℚ),
    (∀ n ∈ l, ¬ eligibleNode current_time n) →
    findBestAux current_time l best best_score = best := by
  intro l
  induction l with
  | nil => intro best bs _; rw [findBestAux]
  | cons x xs ih =>
    intro best bs h
    have hx := h x (List.mem_cons_self x xs)
    have hxs : ∀ n ∈ xs, ¬ eligibleNode current_time n :=
      fun n hn => h n (List.mem_cons_of_mem x hn)
    rw [findBestAux]
    by_cases h1 : x.state ≠ NodeState.connected ∨
        current_time - x.last_heartbeat > 30
    · rw [if_pos h1]; exact ih best bs hxs
    · rw [if_neg h1]
      by_cases h2 : x.container_count ≥ x.resources.max_containers
      · rw [if_pos h2]; exact ih best bs hxs
      · push_neg at h1 h2
        exact absurd ⟨h1.1, le_of_not_lt (by simpa using h1.2), h2⟩ hx

/-! ## Claims about placement -/

/-- C1: every worker returned by `find_best_node` is `NODE_CONNECTED`,
has a heartbeat at most 30 seconds old, and has
`container_count < max_containers`; when no registered worker satisfies
all three predicates the placement returns `NULL`. -/
theorem placement_returns_only_eligible (config : LxcConfig)
    (current_time : Int) (nodes : List Node) :
    (∀ n, find_best_node config current_time nodes = some n →
      n.state = NodeState.connected ∧
      current_time - n.last_heartbeat ≤ 30 ∧
      n.container_count < n.resources.max_containers) ∧
    ((∀ n ∈ nodes, ¬ eligibleNode current_time n) →
      find_best_node config current_time nodes = none) := by
  constructor
  · intro n h
    exact findBestAux_mem_sound current_time nodes none (-1)
      (fun m hm => by cases hm) n h
  · intro h
    exact findBestAux_all_skipped current_time nodes none (-1) h

/-- Witness for C1: the healthy node is selected and indeed satisfies all
three predicates; a registry holding only a stale node yields `NULL`. -/
theorem placement_returns_only_eligible_witness :
    ((healthyNode "w1").state = NodeState.connected ∧
      (100 : Int) - (healthyNode "w1").last_heartbeat ≤ 30 ∧
      (healthyNode "w1").container_count <
        (healthyNode "w1").resources.max_containers) ∧
    find_best_node sampleConfig 100 [staleNode] = none :=
  ⟨(placement_returns_only_eligible sampleConfig 100 [healthyNode "w1"]).1
      (healthyNode "w1")
      (by simp [find_best_node, findBestAux, nodeScore, healthyNode, res10]
          norm_num),
   (placement_returns_only_eligible sampleConfig 100 [staleNode]).2
      (by intro n hn
          simp only [List.mem_singleton] at hn
          subst hn
          simp [eligibleNode, staleNode, healthyNode])⟩

/-- C2 counterexample: with registry order `[b, a]` and identical
resources, both workers are eligible at the maximum score, `"a"` is the
lexicographically smaller id, yet `find_best_node` returns the worker
`"b"` — the strict `score > best_score` comparison keeps the first array
entry, ignoring ids. -/
theorem placement_tiebreak_counterexample :
    eligibleNode 100 (healthyNode "a") ∧
    eligibleNode 100 (healthyNode "b") ∧
    nodeScore (healthyNode "a") = nodeScore (healthyNode "b") ∧
    (healthyNode "a").id < (healthyNode "b").id ∧
    find_best_node sampleConfig 100 [healthyNode "b", healthyNode "a"]
      = some (healthyNode "b") := by
  refine ⟨by simp [eligibleNode, healthyNode, res10], by
    simp [eligibleNode, healthyNode, res10], by simp [nodeScore, healthyNode],
    ?_, ?_⟩
  · show (healthyNode "a").id < (healthyNode "b").id
    simp only [healthyNode]
    rw [String.lt_iff_toList_lt]
    decide
  · simp [find_best_node, findBestAux, nodeScore, healthyNode, res10]
    norm_num

/-- C2 amended: ties in the placement score are broken by position in the
registry (registration order), not by id — among two eligible workers
with equal scores (above the `-1` sentinel) the earlier entry is
returned, whatever the ids. -/
theorem placement_tie_goes_to_first_entry (config : LxcConfig)
    (current_time : Int) (n1 n2 : Node)
    (h1 : eligibleNode current_time n1)
    (h2 : eligibleNode current_time n2)
    (heq : nodeScore n1 = nodeScore n2)
    (hpos : nodeScore n1 > -1) :
    find_best_node config current_time [n1, n2] = some n1 := by
  obtain ⟨h1s, h1h, h1c⟩ := h1
  obtain ⟨h2s, h2h, h2c⟩ := h2
  rw [find_best_node, findBestAux,
    if_neg (by push_neg; exact ⟨h1s, by simpa using h1h⟩),
    if_neg (not_le.mpr h1c), if_pos hpos, findBestAux,
    if_neg (by push_neg; exact ⟨h2s, by simpa using h2h⟩),
    if_neg (not_le.mpr h2c), if_neg (by rw [← heq]; exact lt_irrefl _),
    findBestAux]

/-- Witness for the amended C2: two identically resourced eligible
workers in registry order `[b, a]`; the first entry `b` is returned. -/
theorem placement_tie_goes_to_first_entry_witness :
    find_best_node sampleConfig 100 [healthyNode "b", healthyNode "a"]
      = some (healthyNode "b") :=
  placement_tie_goes_to_first_entry sampleConfig 100
    (healthyNode "b") (healthyNode "a")
    (by simp [eligibleNode, healthyNode, res10])
    (by simp [eligibleNode, healthyNode, res10])
    (by simp [nodeScore, healthyNode])
    (by simp [nodeScore, healthyNode, res10]; norm_num)

/-- C9: a freshly inserted registration carries `memset`-zeroed resources
(`max_containers = 0`, `container_count = 0`), and no worker whose
`container_count` has reached `max_containers` — in particular a
zero/zero fresh registration — is ever returned by `find_best_node`, so
an unheartbeated worker is never selected. -/
theorem unheartbeated_worker_never_placed
    (now : Int) (node_id hostname ip_address : String) (port : Int)
    (nodes : List Node)
    (hnew : anyBy (fun n => n.id = node_id) nodes = false)
    (hlen : nodes.length < MAX_NODES) :
    (register_node now node_id hostname ip_address port nodes).2
      = nodes ++ [freshNode node_id hostname ip_address port now] ∧
    (freshNode node_id hostname ip_address port now).resources.max_containers
      = 0 ∧
    (freshNode node_id hostname ip_address port now).container_count = 0 ∧
    ∀ (config : LxcConfig) (t : Int) (ns : List Node) (m : Node),
      m.container_count ≥ m.resources.max_containers →
      find_best_node config t ns ≠ some m := by
  refine ⟨?_, rfl, rfl, ?_⟩
  · rw [register_node, if_neg (not_le.mpr hlen), hnew]
    simp
  · intro config t ns m hge hsome
    have helig := findBestAux_mem_sound t ns none (-1)
      (fun x hx => by cases hx) m hsome
    exact absurd helig.2.2 (not_lt.mpr hge)

/-- Witness for C9 at a concrete fresh registration into an empty
registry. -/
theorem unheartbeated_worker_never_placed_witness :
    (register_node 5 "w9" "h" "10.0.0.9" 0 []).2
      = [freshNode "w9" "h" "10.0.0.9" 0 5] ∧
    (freshNode "w9" "h" "10.0.0.9" 0 5).resources.max_containers = 0 ∧
    (freshNode "w9" "h" "10.0.0.9" 0 5).container_count = 0 ∧
    ∀ (config : LxcConfig) (t : Int) (ns : List Node) (m : Node),
      m.container_count ≥ m.resources.max_containers →
      find_best_node config t ns ≠ some m := by
  have h := unheartbeated_worker_never_placed 5 "w9" "h" "10.0.0.9" 0 []
    (by simp [anyBy]) (by simp [MAX_NODES])
  simpa using h

/-! ## Claims about node registration -/

theorem find_node_by_id_imp_anyBy (nid : String) :
    ∀ (l : List Node) (n : Node), find_node_by_id l nid = some n →
      anyBy (fun x => x.id = nid) l = true := by
  intro l
  induction l with
  | nil => intro n h; simp [find_node_by_id] at h
  | cons x xs ih =>
    intro n h
    rw [find_node_by_id] at h
    by_cases hx : x.id = nid
    · simp [anyBy, hx]
    · rw [if_neg hx] at h
      simp [anyBy, hx, ih n h]

theorem find_node_by_id_none_imp_anyBy (nid : String) :
    ∀ (l : List Node), find_node_by_id l nid = none →
      anyBy (fun x => x.id = nid) l = false := by
  intro l
  induction l with
  | nil => intro _; simp [anyBy]
  | cons x xs ih =>
    intro h
    rw [find_node_by_id] at h
    by_cases hx : x.id = nid
    · rw [if_pos hx] at h; cases h
    · rw [if_neg hx] at h
      simp [anyBy, hx, ih h]

theorem find_node_by_id_updateFirst (nid : String) (f : Node → Node) :
    ∀ (l : List Node) (n : Node),
    find_node_by_id l nid = some n → (f n).id = n.id →
    find_node_by_id (updateFirst (fun x => x.id = nid) f l) nid
      = some (f n) := by
  intro l
  induction l with
  | nil => intro n h _; simp [find_node_by_id] at h
  | cons x xs ih =>
    intro n h hf
    rw [find_node_by_id] at h
    by_cases hx : x.id = nid
    · rw [if_pos hx] at h
      injection h with h'
      subst h'
      have hu : updateFirst (fun y => y.id = nid) f (x :: xs) = f x :: xs := by
        simp [updateFirst, hx]
      rw [hu, find_node_by_id, if_pos (by rw [hf]; exact hx)]
    · rw [if_neg hx] at h
      have hu : updateFirst (fun y => y.id = nid) f (x :: xs)
          = x :: updateFirst (fun y => y.id = nid) f xs := by
        simp [updateFirst, hx]
      rw [hu, find_node_by_id, if_neg hx]
      exact ih n h hf

/-- C6 amended: `register_node` with an id already present updates that
record's hostname, ip and port, sets `NODE_CONNECTED` and refreshes
`last_heartbeat` (all other fields kept), and with a new id appends a
fresh record — but only when the registry is not full; the capacity check
precedes the existing-id scan, so a full registry (256 workers) rejects
the call even for an id that is already registered. -/
theorem register_node_update_or_insert
    (now : Int) (node_id hostname ip_address : String) (port : Int)
    (nodes : List Node) :
    (nodes.length ≥ MAX_NODES →
      register_node now node_id hostname ip_address port nodes
        = (-1, nodes)) ∧
    (nodes.length < MAX_NODES →
      ∀ n, find_node_by_id nodes node_id = some n →
        (register_node now node_id hostname ip_address port nodes).1 = 0 ∧
        find_node_by_id
          (register_node now node_id hostname ip_address port nodes).2
          node_id
          = some { n with hostname := hostname, ip_address := ip_address
                          port := port, state := NodeState.connected
                          last_heartbeat := now }) ∧
    (nodes.length < MAX_NODES →
      find_node_by_id nodes node_id = none →
        register_node now node_id hostname ip_address port nodes
          = (0, nodes ++ [freshNode node_id hostname ip_address port now]))
    := by
  refine ⟨?_, ?_, ?_⟩
  · intro hfull
    rw [register_node, if_pos hfull]
  · intro hlen n hfind
    rw [register_node, if_neg (not_le.mpr hlen),
      find_node_by_id_imp_anyBy node_id nodes n hfind]
    exact ⟨rfl, find_node_by_id_updateFirst node_id _ nodes n hfind rfl⟩
  · intro hlen hfind
    rw [register_node, if_neg (not_le.mpr hlen),
      find_node_by_id_none_imp_anyBy node_id nodes hfind]
    simp

set_option maxRecDepth 2048 in
/-- C6 counterexample: a full registry of 256 workers containing id `"a"`
rejects `register_node("a", ...)` with `-1` and leaves the registry
unchanged — the claim's unconditional "updates ... and succeeds" for an
existing id fails, because the capacity check runs first. -/
theorem register_full_registry_counterexample :
    find_node_by_id (List.replicate 256 (healthyNode "a")) "a"
      = some (healthyNode "a") ∧
    (register_node 5 "a" "h2" "10.0.0.2" 9
        (List.replicate 256 (healthyNode "a"))).1 = -1 ∧
    (register_node 5 "a" "h2" "10.0.0.2" 9
        (List.replicate 256 (healthyNode "a"))).2
      = List.replicate 256 (healthyNode "a") := by
  refine ⟨?_, ?_, ?_⟩
  · rw [(by norm_num : (256 : Nat) = 255 + 1), List.replicate_succ,
      find_node_by_id, if_pos (by simp [healthyNode])]
  · simp [register_node, MAX_NODES]
  · simp [register_node, MAX_NODES]

/-- Witness for the amended C6: a one-node registry with id `"a"` is
updated in place on re-registration (resources and container count kept),
and id `"b"` registered into an empty registry is appended fresh. -/
theorem register_node_update_or_insert_witness :
    ((register_node 7 "a" "h2" "10.0.0.2" 9 [healthyNode "a"]).1 = 0 ∧
      find_node_by_id
        (register_node 7 "a" "h2" "10.0.0.2" 9 [healthyNode "a"]).2 "a"
        = some { healthyNode "a" with
                  hostname := "h2", ip_address := "10.0.0.2", port := 9
                  state := NodeState.connected, last_heartbeat := 7 }) ∧
    register_node 7 "b" "h" "10.0.0.3" 0 []
      = (0, [freshNode "b" "h" "10.0.0.3" 0 7]) :=
  ⟨(register_node_update_or_insert 7 "a" "h2" "10.0.0.2" 9
      [healthyNode "a"]).2.1 (by simp [MAX_NODES]) (healthyNode "a")
      (by rw [find_node_by_id, if_pos (by simp [healthyNode])]),
   by
    have h := (register_node_update_or_insert 7 "b" "h" "10.0.0.3" 0 []).2.2
      (by simp [MAX_NODES]) (by rw [find_node_by_id])
    simpa using h⟩

/-! ## Claims about disconnect handling and liveness -/

/-- C3 counterexample: node `w1` holds container `w1_web` in `STARTING`;
after its connection closes the worker is `NODE_DISCONNECTED`, but the
ledger record still reads `STARTING` — not `ERROR` — and the same holds
after `unregister_node` removes the worker outright. -/
theorem disconnect_orphan_counterexample :
    (find_node_by_id
        (connection_closed "w1" { nodes := [connW1], ledger := [w1web] }).nodes
        "w1").map Node.state = some NodeState.disconnected ∧
    (connection_closed "w1" { nodes := [connW1], ledger := [w1web] }).ledger
      = [w1web] ∧
    get_container_status "w1_web"
        (connection_closed "w1" { nodes := [connW1], ledger := [w1web] })
      = ContainerState.starting ∧
    (unregister_node_coord "w1"
        { nodes := [connW1], ledger := [w1web] }).2.ledger = [w1web] ∧
    get_container_status "w1_web"
        (unregister_node_coord "w1" { nodes := [connW1], ledger := [w1web] }).2
      = ContainerState.starting ∧
    ContainerState.starting ≠ ContainerState.error := by
  refine ⟨?_, rfl, rfl, rfl, rfl, by decide⟩
  rw [connection_closed]
  simp [updateFirst, find_node_by_id, connW1, healthyNode]

/-- C3 amended: a worker's disconnect (`handle_client_connection`
cleanup) marks the worker `NODE_DISCONNECTED` and clears its socket, and
`unregister_node` removes the worker record, but neither touches the
coordinator ledger: every container record is retained with its state
unchanged (no transition to `ERROR` happens). -/
theorem disconnect_preserves_ledger (node_id : String) (s : CoordState) :
    (connection_closed node_id s).ledger = s.ledger ∧
    (unregister_node_coord node_id s).2.ledger = s.ledger ∧
    (∀ cid, get_container_status cid (connection_closed node_id s)
      = get_container_status cid s) ∧
    (∀ cid, get_container_status cid (unregister_node_coord node_id s).2
      = get_container_status cid s) := by
  have hc : (connection_closed node_id s).ledger = s.ledger := by
    rw [connection_closed]; split <;> rfl
  have hu : (unregister_node_coord node_id s).2.ledger = s.ledger := rfl
  exact ⟨hc, hu, fun cid => by rw [get_container_status, hc,
      ← get_container_status],
    fun cid => by rw [get_container_status, hu, ← get_container_status]⟩

theorem updateFirst_preserve {α : Type} (P : α → Prop) (p : α → Bool)
    (f : α → α) (hf : ∀ x, P x → P (f x)) :
    ∀ (l : List α), (∀ x ∈ l, P x) → ∀ y ∈ updateFirst p f l, P y := by
  intro l
  induction l with
  | nil => intro _ y hy; simp [updateFirst] at hy
  | cons x xs ih =>
    intro h y hy
    rw [updateFirst] at hy
    by_cases hp : p x = true
    · rw [if_pos hp] at hy
      rcases List.mem_cons.mp hy with h1 | h2
      · subst h1; exact hf x (h x (List.mem_cons_self x xs))
      · exact h y (List.mem_cons_of_mem x h2)
    · rw [if_neg hp] at hy
      rcases List.mem_cons.mp hy with h1 | h2
      · subst h1; exact h y (List.mem_cons_self y xs)
      · exact ih (fun z hz => h z (List.mem_cons_of_mem x hz)) y h2

theorem register_node_preserve_not_disconnected
    (now : Int) (node_id hostname ip_address : String) (port : Int)
    (nodes : List Node)
    (h : ∀ n ∈ nodes, n.state ≠ NodeState.disconnected) :
    ∀ n ∈ (register_node now node_id hostname ip_address port nodes).2,
      n.state ≠ NodeState.disconnected := by
  rw [register_node]
  by_cases hlen : nodes.length ≥ MAX_NODES
  · rw [if_pos hlen]; exact h
  · rw [if_neg hlen]
    by_cases hex : anyBy (fun n => n.id = node_id) nodes = true
    · rw [if_pos hex]
      exact updateFirst_preserve _ _ _ (fun x _ => by simp) nodes h
    · rw [if_neg hex]
      intro n hn
      rcases List.mem_append.mp hn with h1 | h2
      · exact h n h1
      · simp only [List.mem_singleton] at h2
        subst h2
        simp [freshNode]

/-- C5 amended: the repository has no background reaper; the only
transition to `NODE_DISCONNECTED` is the connection-close cleanup.
Handling any received frame preserves "no worker is `DISCONNECTED`"
(register and heartbeat force `CONNECTED`, the rest leave states alone),
while `connection_closed` does mark the named worker `DISCONNECTED`.  A
`CONNECTED` worker with a stale heartbeat therefore stays `CONNECTED` for
ever unless its connection closes; staleness only hides it from
placement. -/
theorem message_handling_never_disconnects
    (now client_socket : Int) (msg : CoordMsg) (s : CoordState)
    (h : ∀ n ∈ s.nodes, n.state ≠ NodeState.disconnected) :
    (∀ n ∈ (handle_message now client_socket msg s).1.nodes,
      n.state ≠ NodeState.disconnected) ∧
    ∀ (node_id : String) (t : CoordState) (n : Node),
      node_id.length > 0 →
      find_node_by_id t.nodes node_id = some n →
      find_node_by_id (connection_closed node_id t).nodes node_id
        = some { n with state := NodeState.disconnected
                        socket_fd := -1 } := by
  constructor
  · obtain ⟨ty, sid, dl, pl⟩ := msg
    cases ty <;> cases pl <;>
      simp only [handle_message] <;>
      try exact h
    · -- MSG_REGISTER_NODE with parsed registration payload
      split
      · intro n hn
        refine updateFirst_preserve _ _ _ ?_ _
          (register_node_preserve_not_disconnected _ _ _ _ _ _ h) n hn
        intro x hx
        simpa using hx
      · exact register_node_preserve_not_disconnected _ _ _ _ _ _ h
    · -- MSG_NODE_HEARTBEAT with a registration-shaped payload
      exact updateFirst_preserve _ _ _ (fun x _ => by simp) _ h
    · -- MSG_NODE_HEARTBEAT carrying resources
      exact updateFirst_preserve _ _ _ (fun x _ => by simp) _ h
    · -- MSG_NODE_HEARTBEAT with a container payload
      exact updateFirst_preserve _ _ _ (fun x _ => by simp) _ h
    · -- MSG_NODE_HEARTBEAT with text payload
      exact updateFirst_preserve _ _ _ (fun x _ => by simp) _ h
    · -- MSG_CONTAINER_STATUS
      split
      · intro n hn
        refine updateFirst_preserve _ _ _ ?_ _ h n hn
        intro x hx
        simpa using hx
      · exact h
  · intro node_id t n hlen hfind
    rw [connection_closed, if_pos hlen]
    exact find_node_by_id_updateFirst node_id _ t.nodes n hfind rfl

/-- C5 counterexample: worker `w1` is `CONNECTED` with
`last_heartbeat = 0`; at time 36 the staleness threshold (30 s) and a
full reaper tick (5 s) have both passed, and the coordinator has
meanwhile processed further frames (an error report and a foreign
heartbeat) — every registry transition the source has — yet `w1` still
reads `CONNECTED`: no reaper exists to mark it `DISCONNECTED`. -/
theorem stale_worker_never_reaped_counterexample :
    (36 : Int) - staleNode.last_heartbeat > 30 + 5 ∧
    staleNode.state = NodeState.connected ∧
    (find_node_by_id
        (handle_messages 36 [(7, errMsgW2), (7, hbMsgW2)]
          { nodes := [staleNode], ledger := [] }).nodes
        "w1").map Node.state = some NodeState.connected := by
  refine ⟨by decide, rfl, ?_⟩
  simp [handle_messages, handle_message, errMsgW2, hbMsgW2, updateFirst,
    find_node_by_id, staleNode, healthyNode]

/-- Witness for the amended C5: a singleton registry with a connected
worker stays free of `DISCONNECTED` entries across a handled heartbeat,
and closing `w1`'s connection does mark it `DISCONNECTED`. -/
theorem message_handling_never_disconnects_witness :
    (∀ n ∈ (handle_message 36 7 hbMsgW2
        { nodes := [staleNode], ledger := [] }).1.nodes,
      n.state ≠ NodeState.disconnected) ∧
    find_node_by_id
        (connection_closed "w1"
          { nodes := [staleNode], ledger := [] }).nodes "w1"
      = some { staleNode with state := NodeState.disconnected
                              socket_fd := -1 } :=
  ⟨(message_handling_never_disconnects 36 7 hbMsgW2
      { nodes := [staleNode], ledger := [] }
      (by intro n hn
          simp only [List.mem_singleton] at hn
          subst hn
          simp [staleNode, healthyNode])).1,
   (message_handling_never_disconnects 36 7 hbMsgW2
      { nodes := [staleNode], ledger := [] }
      (by intro n hn
          simp only [List.mem_singleton] at hn
          subst hn
          simp [staleNode, healthyNode])).2 "w1"
      { nodes := [staleNode], ledger := [] } staleNode (by decide)
      (by simp [find_node_by_id, staleNode, healthyNode])⟩

/-! ## Claims about CONTAINER_STATUS handling -/

/-- C4 counterexample: worker `w1` reports the legal transition
`STARTING → RUNNING` for `w1_web`, yet `get_container_status` still
returns `STARTING` afterwards: the handler wrote the new state into the
worker's node-local copy only, never into the coordinator ledger. -/
theorem container_status_ledger_counterexample :
    w1web.state = ContainerState.starting ∧
    get_container_status "w1_web"
        (handle_message 50 7 statusMsgRunning
          { nodes := [connW1], ledger := [w1web] }).1
      = ContainerState.starting ∧
    ContainerState.starting ≠ ContainerState.running ∧
    ((find_node_by_id
        (handle_message 50 7 statusMsgRunning
          { nodes := [connW1], ledger := [w1web] }).1.nodes "w1").map
        (fun n => n.containers.map Container.state))
      = some [ContainerState.running] := by
  refine ⟨rfl, ?_, by decide, ?_⟩
  · simp [handle_message, statusMsgRunning, SIZEOF_CONTAINER_T,
      get_container_status, findContainer, w1web]
  · simp [handle_message, statusMsgRunning, SIZEOF_CONTAINER_T, updateFirst,
      find_node_by_id, connW1, healthyNode, w1web]

/-- C4 amended: a `CONTAINER_STATUS` frame never changes the coordinator
ledger — `get_container_status` reads the same state before and after —
and when the sender is a known worker whose payload passes the size
guard, the reported state is written, with no legality check, over the
first matching entry of that worker's node-local container list. -/
theorem container_status_updates_node_copy_only
    (now client_socket : Int) (msg : CoordMsg) (s : CoordState)
    (htype : msg.type = MessageType.containerStatus) :
    ((handle_message now client_socket msg s).1.ledger = s.ledger ∧
      ∀ cid,
        get_container_status cid (handle_message now client_socket msg s).1
          = get_container_status cid s) ∧
    ∀ report n, msg.payload = MsgPayload.containerReport report →
      msg.data_length ≥ SIZEOF_CONTAINER_T →
      find_node_by_id s.nodes msg.sender_id = some n →
      find_node_by_id (handle_message now client_socket msg s).1.nodes
          msg.sender_id
        = some { n with containers :=
            (updateFirst (fun (c : Container) => c.id = report.id)
              (fun c => { c with state := report.state }) n.containers) } := by
  obtain ⟨ty, sid, dl, pl⟩ := msg
  simp only [CoordMsg.type] at htype
  subst htype
  cases pl with
  | containerReport c =>
    constructor
    · simp only [handle_message]
      split
      · exact ⟨rfl, fun cid => rfl⟩
      · exact ⟨rfl, fun cid => rfl⟩
    · intro report n hpl hdl hfind
      simp only [CoordMsg.payload] at hpl
      injection hpl with hc
      subst hc
      simp only [handle_message, if_pos hdl]
      exact find_node_by_id_updateFirst sid _ s.nodes n hfind rfl
  | registerInfo hostname ip port =>
    exact ⟨⟨rfl, fun cid => rfl⟩, fun report n hpl _ _ => by cases hpl⟩
  | resourceSample r =>
    exact ⟨⟨rfl, fun cid => rfl⟩, fun report n hpl _ _ => by cases hpl⟩
  | text str =>
    exact ⟨⟨rfl, fun cid => rfl⟩, fun report n hpl _ _ => by cases hpl⟩

/-- Witness for the amended C4 on the S1 scenario state: the ledger is
untouched and `w1`'s own copy of `w1_web` is overwritten to the reported
`RUNNING`. -/
theorem container_status_updates_node_copy_only_witness :
    ((handle_message 50 7 statusMsgRunning
        { nodes := [connW1], ledger := [w1web] }).1.ledger = [w1web] ∧
      ∀ cid,
        get_container_status cid
            (handle_message 50 7 statusMsgRunning
              { nodes := [connW1], ledger := [w1web] }).1
          = get_container_status cid { nodes := [connW1], ledger := [w1web] }) ∧
    find_node_by_id
        (handle_message 50 7 statusMsgRunning
          { nodes := [connW1], ledger := [w1web] }).1.nodes "w1"
      = some { connW1 with containers :=
          (updateFirst
            (fun (c : Container) =>
              c.id = ({ w1web with state := ContainerState.running } :
                Container).id)
            (fun c => { c with state := ContainerState.running })
            connW1.containers) } :=
  ⟨(container_status_updates_node_copy_only 50 7 statusMsgRunning
      { nodes := [connW1], ledger := [w1web] } rfl).1,
   (container_status_updates_node_copy_only 50 7 statusMsgRunning
      { nodes := [connW1], ledger := [w1web] } rfl).2
      { w1web with state := ContainerState.running } connW1 rfl
      (by decide)
      (by simp [find_node_by_id, statusMsgRunning, connW1, healthyNode])⟩

/-! ## Claims about operator lifecycle commands -/

/-- C7 counterexample: container `w1_web`'s worker is `DISCONNECTED`, yet
`delete_container` is not rejected: it returns success (0), sends
nothing, and removes the ledger record. -/
theorem delete_on_disconnected_counterexample :
    discW1.state ≠ NodeState.connected ∧
    (delete_container "w1_web" { nodes := [discW1], ledger := [w1web] }).ret
      = 0 ∧
    (delete_container "w1_web" { nodes := [discW1], ledger := [w1web] }).sent
      = [] ∧
    (delete_container "w1_web"
        { nodes := [discW1], ledger := [w1web] }).state.ledger = [] := by
  refine ⟨by decide, ?_, ?_, ?_⟩ <;>
    simp [delete_container, findContainer, find_node_by_id, sendOn, send_ok,
      eraseFirstBy, anyBy, updateFirst, discW1, connW1, healthyNode, w1web]

/-- C7 amended: when a container's worker has a closed socket (`fd < 0`,
the registry state after any disconnect), `start_container` and
`stop_container` fail with -1 and send nothing — a transport failure, not
an explicit `CONNECTED` check — while `delete_container` is never
rejected for worker unavailability: it still returns 0, sends nothing
over the closed socket, and removes the ledger record. -/
theorem lifecycle_ops_on_closed_socket (now : Int) (container_id : String)
    (s : CoordState) (c : Container) (n : Node)
    (hc : findContainer s.ledger container_id = some c)
    (hn : find_node_by_id s.nodes c.node_id = some n)
    (hfd : n.socket_fd < 0) :
    start_container now container_id s = ⟨-1, [], s⟩ ∧
    stop_container container_id s = ⟨-1, [], s⟩ ∧
    (delete_container container_id s).ret = 0 ∧
    (delete_container container_id s).sent = [] ∧
    (delete_container container_id s).state.ledger
      = eraseFirstBy (fun (x : Container) => x.id = container_id)
          s.ledger := by
  have hsend : send_ok n.socket_fd = false := by
    simp only [send_ok, decide_eq_false_iff_not, not_le]
    exact hfd
  refine ⟨?_, ?_, ?_, ?_, ?_⟩ <;>
    simp [start_container, stop_container, delete_container, hc, hn, hsend,
      sendOn]

/-- Witness for the amended C7 on the S3 state: `w1` disconnected, start
and stop fail without sending, delete succeeds and empties the ledger. -/
theorem lifecycle_ops_on_closed_socket_witness :
    start_container 50 "w1_web" { nodes := [discW1], ledger := [w1web] }
      = ⟨-1, [], { nodes := [discW1], ledger := [w1web] }⟩ ∧
    stop_container "w1_web" { nodes := [discW1], ledger := [w1web] }
      = ⟨-1, [], { nodes := [discW1], ledger := [w1web] }⟩ ∧
    (delete_container "w1_web"
        { nodes := [discW1], ledger := [w1web] }).ret = 0 ∧
    (delete_container "w1_web"
        { nodes := [discW1], ledger := [w1web] }).sent = [] ∧
    (delete_container "w1_web"
        { nodes := [discW1], ledger := [w1web] }).state.ledger
      = eraseFirstBy (fun (x : Container) => x.id = "w1_web") [w1web] :=
  lifecycle_ops_on_closed_socket 50 "w1_web"
    { nodes := [discW1], ledger := [w1web] } w1web discW1
    (by simp [findContainer, w1web])
    (by simp [find_node_by_id, w1web, discW1, connW1, healthyNode])
    (by decide)

/-- C10: with the ledger already holding `MAX_CONTAINERS` (1024) records,
`deploy_container` to a connected worker with an open socket still sends
the `MSG_DEPLOY_CONTAINER` frame and returns 0, but records nothing: the
state (ledger and registry) is unchanged, so the deployed container is
untracked. -/
theorem deploy_full_ledger_untracked (now : Int) (node_id : String)
    (config : LxcConfig) (s : CoordState) (n : Node)
    (hn : find_node_by_id s.nodes node_id = some n)
    (hst : n.state = NodeState.connected)
    (hfd : 0 ≤ n.socket_fd)
    (hfull : s.ledger.length = MAX_CONTAINERS) :
    deploy_container now node_id config s
      = ⟨0, [⟨n.socket_fd, MessageType.deployContainer, node_id⟩], s⟩ := by
  have hsend : send_ok n.socket_fd = true := by
    simpa [send_ok] using hfd
  simp [deploy_container, hn, hst, hsend, sendOn, hfull]

set_option maxRecDepth 8192 in
/-- Witness for C10: a full ledger of 1024 records; deploying to the
connected `w1` returns 0 and sends the frame on socket 7, with the state
identical. -/
theorem deploy_full_ledger_untracked_witness :
    deploy_container 60 "w1" sampleConfig
        { nodes := [connW1], ledger := List.replicate 1024 w1web }
      = ⟨0, [⟨connW1.socket_fd, MessageType.deployContainer, "w1"⟩],
          { nodes := [connW1], ledger := List.replicate 1024 w1web }⟩ :=
  deploy_full_ledger_untracked 60 "w1" sampleConfig
    { nodes := [connW1], ledger := List.replicate 1024 w1web } connW1
    (by simp [find_node_by_id, connW1, healthyNode])
    rfl
    (by decide)
    (by simp [MAX_CONTAINERS])

/-! ## Claims about the wire codec -/

theorem takeWhile_append_zero (r : List Nat) :
    ∀ (l : List Nat), (∀ b ∈ l, b ≠ 0) →
    (l ++ 0 :: r).takeWhile (fun b => b ≠ 0) = l := by
  intro l
  induction l with
  | nil => intro _; simp
  | cons x xs ih =>
    intro h
    have hx : x ≠ 0 := h x (List.mem_cons_self x xs)
    rw [List.cons_append, List.takeWhile_cons, if_pos (by simp [hx]),
      ih (fun b hb => h b (List.mem_cons_of_mem x hb))]

/-- C8: for every message whose ids fit the 256-byte NUL-padded fields
(at most 255 NUL-free bytes, as `strncpy` stores them) and whose payload
fits the 7672-byte data region, decoding the frame built by
`create_message` restores the message exactly, and the stored
`data_length` is the payload length. -/
theorem codec_roundtrip (m : WireMessage)
    (hs : m.sender_id.length ≤ MAX_NAME_LEN - 1)
    (hs0 : ∀ b ∈ m.sender_id, b ≠ 0)
    (hr : m.recipient_id.length ≤ MAX_NAME_LEN - 1)
    (hr0 : ∀ b ∈ m.recipient_id, b ≠ 0)
    (hp : m.payload.length ≤ FRAME_DATA_SIZE) :
    decode_message (create_message m) = m ∧
    (create_message m).data_length = m.payload.length := by
  have hcopy : (if m.payload.length < FRAME_DATA_SIZE
      then m.payload.length else FRAME_DATA_SIZE) = m.payload.length := by
    rcases lt_or_eq_of_le hp with h | h
    · rw [if_pos h]
    · rw [h, if_neg (lt_irrefl _)]
  have hfield : ∀ (l : List Nat), l.length ≤ MAX_NAME_LEN - 1 →
      (∀ b ∈ l, b ≠ 0) →
      (padField MAX_NAME_LEN (MAX_NAME_LEN - 1) l).takeWhile
        (fun b => b ≠ 0) = l := by
    intro l hl h0
    have hl' : l.length ≤ 255 := by simpa [MAX_NAME_LEN] using hl
    rw [padField, List.take_of_length_le hl,
      (by simp only [MAX_NAME_LEN]; omega :
        MAX_NAME_LEN - l.length = (MAX_NAME_LEN - l.length - 1) + 1),
      List.replicate_succ]
    exact takeWhile_append_zero _ l h0
  have hdata : ((m.payload.take (if m.payload.length < FRAME_DATA_SIZE
        then m.payload.length else FRAME_DATA_SIZE)) ++
      List.replicate (FRAME_DATA_SIZE - (if m.payload.length < FRAME_DATA_SIZE
        then m.payload.length else FRAME_DATA_SIZE)) 0).take
      (if m.payload.length < FRAME_DATA_SIZE
        then m.payload.length else FRAME_DATA_SIZE) = m.payload := by
    rw [hcopy, List.take_of_length_le (le_refl _),
      ← (List.take_of_length_le (le_refl m.payload.length) :
          m.payload.take m.payload.length = m.payload)]
    rw [List.take_of_length_le (le_refl _)]
    exact List.take_left m.payload _
  constructor
  · rw [decode_message, create_message]
    obtain ⟨ty, sid, rid, pl⟩ := m
    simp only at hcopy hdata ⊢
    rw [hcopy] at hdata
    congr 1
    · exact hfield sid hs hs0
    · exact hfield rid hr hr0
    · simp only [hcopy]
      exact hdata
  · rw [create_message]
    exact hcopy

/-- Witness for C8 at a small concrete frame (5-byte payload containing a
NUL, two-byte ids). -/
theorem codec_roundtrip_witness :
    decode_message (create_message sampleWire) = sampleWire ∧
    (create_message sampleWire).data_length = sampleWire.payload.length :=
  codec_roundtrip sampleWire (by decide) (by decide) (by decide) (by decide)
    (by decide)
